import Mathlib

/-!
Verification of `src/app/lib/pdf2img.ts` (`convertPdfToImage`), a browser
utility converting the first page of a PDF file to a PNG image.

The TypeScript function is shallowly embedded as a pure Lean function over
an explicit environment `Env` that supplies the outcome of every external
interaction (dynamic module imports, `file.arrayBuffer()`, the pdfjs engine
calls, canvas context acquisition, rendering, and `canvas.toBlob`).  A JS
exception is modelled by `JsError`; a step that can reject/throw has type
`Except JsError _` in `Env`.

The embedding returns
  `Except JsError PdfConversionResult × Trace`
where the first component is the settled state of the promise the caller
receives (`Except.ok r` = the promise resolves with `r`; `Except.error e` =
the promise rejects with `e`) and `Trace` records the external operations
performed during the call, so that claims about which engine/canvas
operations are (not) performed can be stated.

JS semantics modelled with care:
  * the `try`/`catch` wraps the awaited steps; the final
    `return new Promise(...)` is returned WITHOUT `await`, so per JS
    semantics a synchronous throw inside the promise executor (i.e. from
    the `canvas.toBlob(...)` invocation itself) rejects the returned
    promise and is NOT intercepted by the `catch` block;
  * `err.message || err` in the catch falls back to the string form of the
    error when `message` is absent or the empty string (falsy);
  * `URL.createObjectURL` always yields a string with the `blob:` scheme
    prefix (per the File API / URL specifications), modelled structurally
    as `"blob:" ++ token`.
-/

/-- A JavaScript exception value: its `message` property (absent when the
thrown value has no such property) and its string form `String(err)`. -/
structure JsError where
  message : Option String
  stringForm : String
  deriving Repr, DecidableEq

/-- An opaque binary payload produced by `canvas.toBlob` (identified by an
id; the pixel content itself is irrelevant to the claims). -/
structure Blob where
  id : Nat
  deriving Repr, DecidableEq

/-- A `{width, height}` viewport as returned by `page.getViewport({scale})`. -/
structure Viewport where
  width : Nat
  height : Nat
  deriving Repr, DecidableEq

/-- The browser `File` constructed on success:
`new File([blob], name, { type: "image/png" })`. -/
structure ImageFile where
  name : String
  mime : String
  blob : Blob
  deriving Repr, DecidableEq

/-- The input `File` handed to `convertPdfToImage`: only its `name` is
inspected by the function itself (its bytes are read by
`file.arrayBuffer()`, an external call whose outcome `Env` supplies). -/
structure InputFile where
  name : String
  deriving Repr, DecidableEq

/-- The result record of `convertPdfToImage` (interface
`PdfConversionResult`): `imageUrl : string`, `file : File | null`,
`error?: string`. -/
structure PdfConversionResult where
  imageUrl : String
  file : Option ImageFile
  error : Option String
  deriving Repr, DecidableEq

/-- Outcomes of every external interaction the function performs, i.e. the
behaviour of the browser, the pdfjs engine and the canvas during one call.
`Except.error e` means the corresponding await rejects / the call throws
the JS exception `e`. -/
structure Env where
  /-- `typeof window !== "undefined"` -/
  hasWindow : Bool
  /-- `typeof document !== "undefined"` -/
  hasDocument : Bool
  /-- `await import("pdfjs-dist")` -/
  importPdfjs : Except JsError Unit
  /-- `await import("pdfjs-dist/build/pdf.worker.min.mjs?url")`; on success
  yields the worker URL string (`pdfWorker.default`). -/
  importWorker : Except JsError String
  /-- `await file.arrayBuffer()` -/
  arrayBuffer : Except JsError Unit
  /-- `await pdfjsLib.getDocument({ data: arrayBuffer }).promise` -/
  getDocument : Except JsError Unit
  /-- `await pdf.getPage(n)` for the requested page number `n` -/
  getPage : Nat → Except JsError Unit
  /-- `page.getViewport({ scale })` for the requested scale -/
  getViewport : Nat → Viewport
  /-- `canvas.getContext("2d")`: `none` models a `null` context -/
  getContext2d : Option Unit
  /-- `await page.render({ canvasContext, viewport })` -/
  render : Except JsError Unit
  /-- `canvas.toBlob(cb, "image/png", 1.0)`: `Except.error e` models the
  invocation throwing synchronously (e.g. a `SecurityError`); `Except.ok
  none` models the callback receiving a `null` blob; `Except.ok (some b)`
  models the callback receiving blob `b`. -/
  toBlob : Except JsError (Option Blob)
  /-- `URL.createObjectURL b = "blob:" ++ urlToken b` (the scheme prefix is
  guaranteed by the URL specification) -/
  urlToken : Blob → String

/-- Log of the external operations performed during one call, used to state
claims about which operations are (not) triggered. -/
structure Trace where
  /-- number of `import("pdfjs-dist")` evaluations -/
  engineImports : Nat
  /-- number of `import("pdfjs-dist/build/pdf.worker.min.mjs?url")` evaluations -/
  workerImports : Nat
  /-- values assigned to `pdfjsLib.GlobalWorkerOptions.workerSrc`, in order -/
  workerSrcWrites : List String
  /-- number of `file.arrayBuffer()` calls -/
  arrayBufferReads : Nat
  /-- number of `pdfjsLib.getDocument` calls -/
  getDocumentCalls : Nat
  /-- page numbers passed to `pdf.getPage`, in order -/
  pagesRequested : List Nat
  /-- scales passed to `page.getViewport`, in order -/
  viewportScales : List Nat
  /-- number of `document.createElement("canvas")` calls -/
  canvasesCreated : Nat
  /-- number of `canvas.getContext("2d")` calls -/
  contextRequests : Nat
  /-- `(width, height)` pairs assigned to the canvas, in order -/
  canvasSizes : List (Nat × Nat)
  /-- canvas `(width, height)` in effect at each `page.render` call -/
  rendersAt : List (Nat × Nat)
  /-- MIME types passed to `canvas.toBlob`, in order -/
  toBlobMimes : List String
  /-- number of `URL.createObjectURL` calls -/
  objectURLCalls : Nat
  deriving Repr, DecidableEq

/-- The empty trace: no external operation performed. -/
def Trace.empty : Trace :=
  { engineImports := 0, workerImports := 0, workerSrcWrites := [],
    arrayBufferReads := 0, getDocumentCalls := 0, pagesRequested := [],
    viewportScales := [], canvasesCreated := 0, contextRequests := 0,
    canvasSizes := [], rendersAt := [], toBlobMimes := [],
    objectURLCalls := 0 }

/-- The guard message returned when `window`/`document` are unavailable. -/
def ssrMessage : String :=
  "PDF conversion must run in the browser (DOM APIs not available)."

/-- A failure-shaped result: `{ imageUrl: "", file: null, error: msg }`. -/
def failRes (msg : String) : PdfConversionResult :=
  { imageUrl := "", file := none, error := some msg }

/-- The exception `new Error("Failed to get 2D canvas context")` thrown
when `canvas.getContext("2d")` returns `null` (`String(err)` on an `Error`
yields `"Error: " + message`). -/
def contextError : JsError :=
  { message := some "Failed to get 2D canvas context",
    stringForm := "Error: Failed to get 2D canvas context" }

/-- The string interpolated by the catch block: `${err.message || err}`.
`message` is used when present and non-empty (JS truthiness); otherwise the
string form of the error. -/
def errText (e : JsError) : String :=
  match e.message with
  | some m => if m = "" then e.stringForm else m
  | none => e.stringForm

/-- `file.name.replace(/\.pdf$/i, "")`: strips one trailing `.pdf`
(case-insensitively, ASCII — the regex has no `u` flag, so only
`p`/`P`, `d`/`D`, `f`/`F` match under `/i`) and leaves every other name
unchanged. -/
def stripPdfExt (name : String) : String :=
  if (name.toList.drop (name.toList.length - 4)).map Char.toLower
      = ['.', 'p', 'd', 'f'] then
    (name.toList.take (name.toList.length - 4)).asString
  else
    name

/-- The derived output filename: `` `${baseName}.png` ``. -/
def derivedPngName (name : String) : String :=
  stripPdfExt name ++ ".png"

/-- Trace after `await import("pdfjs-dist")`. -/
def traceEngineImport : Trace := { Trace.empty with engineImports := 1 }

/-- Trace after `await import("pdfjs-dist/build/pdf.worker.min.mjs?url")`. -/
def traceWorkerImport : Trace := { traceEngineImport with workerImports := 1 }

/-- Trace after `pdfjsLib.GlobalWorkerOptions.workerSrc = pdfWorker.default`
and `await file.arrayBuffer()`. -/
def traceArrayBuffer (u : String) : Trace :=
  { traceWorkerImport with workerSrcWrites := [u], arrayBufferReads := 1 }

/-- Trace after `await pdfjsLib.getDocument({ data: arrayBuffer }).promise`. -/
def traceGetDocument (u : String) : Trace :=
  { traceArrayBuffer u with getDocumentCalls := 1 }

/-- Trace after `await pdf.getPage(1)`. -/
def traceGetPage (u : String) : Trace :=
  { traceGetDocument u with pagesRequested := [1] }

/-- Trace after `page.getViewport({ scale: 3 })`,
`document.createElement("canvas")` and `canvas.getContext("2d")`. -/
def traceGetContext (u : String) : Trace :=
  { traceGetPage u with
    viewportScales := [3], canvasesCreated := 1, contextRequests := 1 }

/-- Trace after the canvas width/height assignments and the
`page.render({ canvasContext, viewport })` call. -/
def traceRender (u : String) (vp : Viewport) : Trace :=
  { traceGetContext u with
    canvasSizes := [(vp.width, vp.height)], rendersAt := [(vp.width, vp.height)] }

/-- Trace after the `canvas.toBlob(..., "image/png", 1.0)` invocation. -/
def traceToBlob (u : String) (vp : Viewport) : Trace :=
  { traceRender u vp with toBlobMimes := ["image/png"] }

/-- Trace after `URL.createObjectURL(blob)` on the success path. -/
def traceObjectURL (u : String) (vp : Viewport) : Trace :=
  { traceToBlob u vp with objectURLCalls := 1 }

/-- The success-path result: `{ imageUrl: URL.createObjectURL(blob),
file: new File([blob], baseName + ".png", { type: "image/png" }) }`. -/
def successRes (env : Env) (file : InputFile) (blob : Blob) : PdfConversionResult :=
  { imageUrl := "blob:" ++ env.urlToken blob,
    file := some { name := derivedPngName file.name,
                   mime := "image/png",
                   blob := blob },
    error := none }

/-- The body of the `try` block (everything after the SSR guard).  The
outer `Except` layer is an exception thrown while executing the `try`
block itself (it will be intercepted by the `catch`); the inner layer is
the settled state of the promise built by `new Promise((resolve) => {
canvas.toBlob(...) })`, which the `try`/`catch` does NOT cover because it
is returned without `await`. -/
def tryBlock (env : Env) (file : InputFile) :
    Except JsError (Except JsError PdfConversionResult) × Trace :=
  match env.importPdfjs with
  | .error e => (.error e, traceEngineImport)
  | .ok _ =>
    match env.importWorker with
    | .error e => (.error e, traceWorkerImport)
    | .ok workerUrl =>
      -- pdfjsLib.GlobalWorkerOptions.workerSrc = pdfWorker.default;
      -- const arrayBuffer = await file.arrayBuffer()
      match env.arrayBuffer with
      | .error e => (.error e, traceArrayBuffer workerUrl)
      | .ok _ =>
        match env.getDocument with
        | .error e => (.error e, traceGetDocument workerUrl)
        | .ok _ =>
          -- const page = await pdf.getPage(1)
          match env.getPage 1 with
          | .error e => (.error e, traceGetPage workerUrl)
          | .ok _ =>
            -- const scale = 3; const viewport = page.getViewport({ scale });
            -- const canvas = document.createElement("canvas");
            -- const context = canvas.getContext("2d")
            match env.getContext2d with
            | none =>
              -- if (!context) throw new Error("Failed to get 2D canvas context")
              (.error contextError, traceGetContext workerUrl)
            | some _ =>
              -- canvas.width = viewport.width; canvas.height = viewport.height;
              -- await page.render({ canvasContext: context, viewport })
              match env.render with
              | .error e => (.error e, traceRender workerUrl (env.getViewport 3))
              | .ok _ =>
                -- return new Promise((resolve) => { canvas.toBlob(..., "image/png", 1.0) })
                match env.toBlob with
                | .error e =>
                  -- the executor throws => the returned promise rejects;
                  -- `new Promise` itself returns normally, so the catch is bypassed
                  (.ok (.error e), traceToBlob workerUrl (env.getViewport 3))
                | .ok none =>
                  (.ok (.ok (failRes "Failed to create image blob")),
                   traceToBlob workerUrl (env.getViewport 3))
                | .ok (some blob) =>
                  (.ok (.ok (successRes env file blob)),
                   traceObjectURL workerUrl (env.getViewport 3))

/-- Shallow embedding of `convertPdfToImage`.  The first component is the
settled state of the promise returned to the caller (`ok` = resolves,
`error` = rejects); the second is the trace of external operations. -/
def convertPdfToImage (env : Env) (file : InputFile) :
    Except JsError PdfConversionResult × Trace :=
  if env.hasWindow = false ∨ env.hasDocument = false then
    (.ok (failRes ssrMessage), Trace.empty)
  else
    match tryBlock env file with
    | (.ok promiseOutcome, t) => (promiseOutcome, t)
    | (.error e, t) =>
      (.ok (failRes ("Failed to convert PDF: " ++ errText e)), t)

/-! ### Result-shape predicates (spec section 3, "ConversionResult" invariant) -/

/-- Success shape: `imageUrl` non-empty, `file` non-null, `error` absent. -/
def isSuccessShape (r : PdfConversionResult) : Prop :=
  r.imageUrl ≠ "" ∧ r.file ≠ none ∧ r.error = none

/-- Failure shape: `imageUrl` empty, `file` null, `error` present and
non-empty. -/
def isFailureShape (r : PdfConversionResult) : Prop :=
  r.imageUrl = "" ∧ r.file = none ∧ ∃ s, r.error = some s ∧ s ≠ ""

/-! ### Concrete environments and files used as witnesses -/

/-- A fully successful browser environment (US-letter page, 612×792 pt). -/
def okEnv : Env :=
  { hasWindow := true, hasDocument := true,
    importPdfjs := .ok (),
    importWorker := .ok "pdf.worker.min.mjs",
    arrayBuffer := .ok (),
    getDocument := .ok (),
    getPage := fun _ => .ok (),
    getViewport := fun s => { width := 612 * s, height := 792 * s },
    getContext2d := some (),
    render := .ok (),
    toBlob := .ok (some { id := 7 }),
    urlToken := fun b => "https://app.example/" ++ toString b.id }

/-- A sample input file. -/
def sampleFile : InputFile := { name := "invoice.PDF" }

/-- The successful environment with `window` absent (an SSR context). -/
def ssrEnv : Env := { okEnv with hasWindow := false }

/-- The successful environment, but `canvas.getContext("2d")` yields null. -/
def noCtxEnv : Env := { okEnv with getContext2d := none }

/-- The successful environment, but `canvas.toBlob` delivers a null blob. -/
def nullBlobEnv : Env := { okEnv with toBlob := .ok none }

/-- A `SecurityError` such as `canvas.toBlob` throws on a tainted canvas. -/
def securityError : JsError :=
  { message := some "The operation is insecure.",
    stringForm := "SecurityError: The operation is insecure." }

/-- The successful environment, but the `canvas.toBlob(...)` invocation
itself throws synchronously. -/
def blobThrowEnv : Env := { okEnv with toBlob := .error securityError }

/-- An engine exception carrying no `message` property. -/
def badPdfError : JsError :=
  { message := none, stringForm := "InvalidPDFException" }

/-- The successful environment, but loading the PDF document rejects. -/
def badPdfEnv : Env := { okEnv with getDocument := .error badPdfError }

/-! ### Helper lemmas -/

/-- A string with a non-empty left part is non-empty. -/
theorem append_ne_empty_of_left (a b : String) (h : a ≠ "") : a ++ b ≠ "" := by
  intro hab
  apply h
  apply String.ext
  have hd := congrArg String.data hab
  rw [String.data_append] at hd
  have : a.data = [] := (List.append_eq_nil.mp hd).1
  simpa using this

/-- On the SSR guard path the function returns the fixed failure result and
performs no external operation. -/
theorem convert_ssr (env : Env) (file : InputFile)
    (h : env.hasWindow = false ∨ env.hasDocument = false) :
    convertPdfToImage env file = (.ok (failRes ssrMessage), Trace.empty) := by
  unfold convertPdfToImage
  rw [if_pos h]

/-- When the `try` block throws, the `catch` produces the wrapped failure. -/
theorem convert_catch (env : Env) (file : InputFile) (e : JsError) (t : Trace)
    (hw : env.hasWindow = true) (hd : env.hasDocument = true)
    (h : tryBlock env file = (.error e, t)) :
    convertPdfToImage env file
      = (.ok (failRes ("Failed to convert PDF: " ++ errText e)), t) := by
  unfold convertPdfToImage
  rw [hw, hd, h]
  simp

/-- When the `try` block returns the promise, the caller observes the
promise's settled state. -/
theorem convert_promise (env : Env) (file : InputFile)
    (po : Except JsError PdfConversionResult) (t : Trace)
    (hw : env.hasWindow = true) (hd : env.hasDocument = true)
    (h : tryBlock env file = (.ok po, t)) :
    convertPdfToImage env file = (po, t) := by
  unfold convertPdfToImage
  rw [hw, hd, h]
  simp

/-- Exhaustive case analysis of the `try` block's outcome: it either throws
(to be caught by the `catch`), or returns the promise rejected (synchronous
`toBlob` throw), resolved with the null-blob failure, or resolved with the
success result. -/
theorem tryBlock_cases (env : Env) (file : InputFile) :
    (∃ e t, tryBlock env file = (.error e, t)) ∨
    (∃ e t, tryBlock env file = (.ok (.error e), t) ∧ env.toBlob = .error e) ∨
    (∃ t, tryBlock env file
        = (.ok (.ok (failRes "Failed to create image blob")), t)) ∨
    (∃ b t, tryBlock env file = (.ok (.ok (successRes env file b)), t)) := by
  rcases h1 : env.importPdfjs with e1 | u1
  · exact Or.inl ⟨e1, traceEngineImport, by simp only [tryBlock, h1]⟩
  rcases h2 : env.importWorker with e2 | u2
  · exact Or.inl ⟨e2, traceWorkerImport, by simp only [tryBlock, h1, h2]⟩
  rcases h3 : env.arrayBuffer with e3 | u3
  · exact Or.inl ⟨e3, traceArrayBuffer u2, by simp only [tryBlock, h1, h2, h3]⟩
  rcases h4 : env.getDocument with e4 | u4
  · exact Or.inl ⟨e4, traceGetDocument u2,
      by simp only [tryBlock, h1, h2, h3, h4]⟩
  rcases h5 : env.getPage 1 with e5 | u5
  · exact Or.inl ⟨e5, traceGetPage u2,
      by simp only [tryBlock, h1, h2, h3, h4, h5]⟩
  rcases h6 : env.getContext2d with _ | u6
  · exact Or.inl ⟨contextError, traceGetContext u2,
      by simp only [tryBlock, h1, h2, h3, h4, h5, h6]⟩
  rcases h7 : env.render with e7 | u7
  · exact Or.inl ⟨e7, traceRender u2 (env.getViewport 3),
      by simp only [tryBlock, h1, h2, h3, h4, h5, h6, h7]⟩
  rcases h8 : env.toBlob with e8 | ob
  · refine Or.inr (Or.inl ⟨e8, traceToBlob u2 (env.getViewport 3), ?_, rfl⟩)
    simp only [tryBlock, h1, h2, h3, h4, h5, h6, h7, h8]
  rcases ob with _ | b
  · exact Or.inr (Or.inr (Or.inl ⟨traceToBlob u2 (env.getViewport 3),
      by simp only [tryBlock, h1, h2, h3, h4, h5, h6, h7, h8]⟩))
  · exact Or.inr (Or.inr (Or.inr ⟨b, traceObjectURL u2 (env.getViewport 3),
      by simp only [tryBlock, h1, h2, h3, h4, h5, h6, h7, h8]⟩))

/-- `failRes msg` with a non-empty message is failure-shaped and not
success-shaped. -/
theorem failRes_shape (msg : String) (h : msg ≠ "") :
    isFailureShape (failRes msg) ∧ ¬ isSuccessShape (failRes msg) := by
  constructor
  · exact ⟨rfl, rfl, msg, rfl, h⟩
  · rintro ⟨-, -, herr⟩
    simp [failRes] at herr

/-- `successRes env file b` is success-shaped and not failure-shaped. -/
theorem successRes_shape (env : Env) (file : InputFile) (b : Blob) :
    isSuccessShape (successRes env file b)
      ∧ ¬ isFailureShape (successRes env file b) := by
  constructor
  · refine ⟨?_, ?_, rfl⟩
    · exact append_ne_empty_of_left "blob:" _ (by decide)
    · simp [successRes]
  · rintro ⟨-, -, s, hs, -⟩
    simp [successRes] at hs

/-! ### The claims -/

/-- C1: every result `convertPdfToImage` resolves with is either the
success triple (non-empty `imageUrl`, non-null `file`, absent `error`) or
the failure pair (empty `imageUrl`, null `file`, present non-empty
`error`), and never a mix of the two shapes. -/
theorem c1_result_shape (env : Env) (file : InputFile)
    (r : PdfConversionResult) (t : Trace)
    (h : convertPdfToImage env file = (.ok r, t)) :
    (isSuccessShape r ∧ ¬ isFailureShape r)
      ∨ (isFailureShape r ∧ ¬ isSuccessShape r) := by
  by_cases hssr : env.hasWindow = false ∨ env.hasDocument = false
  · rw [convert_ssr env file hssr] at h
    simp only [Prod.mk.injEq, Except.ok.injEq] at h
    obtain ⟨rfl, -⟩ := h
    exact Or.inr (failRes_shape ssrMessage (by decide))
  · push_neg at hssr
    obtain ⟨hw, hd⟩ := hssr
    have hw' : env.hasWindow = true := by simpa using hw
    have hd' : env.hasDocument = true := by simpa using hd
    rcases tryBlock_cases env file with ⟨e, t', ht⟩ | ⟨e, t', ht, -⟩ | ⟨t', ht⟩
      | ⟨b, t', ht⟩
    · rw [convert_catch env file e t' hw' hd' ht] at h
      simp only [Prod.mk.injEq, Except.ok.injEq] at h
      obtain ⟨rfl, -⟩ := h
      exact Or.inr (failRes_shape _ (append_ne_empty_of_left _ _ (by decide)))
    · rw [convert_promise env file _ t' hw' hd' ht] at h
      simp at h
    · rw [convert_promise env file _ t' hw' hd' ht] at h
      simp only [Prod.mk.injEq, Except.ok.injEq] at h
      obtain ⟨rfl, -⟩ := h
      exact Or.inr (failRes_shape _ (by decide))
    · rw [convert_promise env file _ t' hw' hd' ht] at h
      simp only [Prod.mk.injEq, Except.ok.injEq] at h
      obtain ⟨rfl, -⟩ := h
      exact Or.inl (successRes_shape env file b)

/-- Witness for C1 at the fully successful environment. -/
theorem c1_result_shape_witness :
    (isSuccessShape (successRes okEnv sampleFile ⟨7⟩)
        ∧ ¬ isFailureShape (successRes okEnv sampleFile ⟨7⟩))
      ∨ (isFailureShape (successRes okEnv sampleFile ⟨7⟩)
        ∧ ¬ isSuccessShape (successRes okEnv sampleFile ⟨7⟩)) :=
  c1_result_shape okEnv sampleFile (successRes okEnv sampleFile ⟨7⟩)
    (traceObjectURL "pdf.worker.min.mjs" (okEnv.getViewport 3)) rfl

/-- Pipeline reduction when every step succeeds and the encoder delivers
blob `b`. -/
theorem tryBlock_success (env : Env) (file : InputFile) (u : String) (b : Blob)
    (h1 : env.importPdfjs = .ok ()) (h2 : env.importWorker = .ok u)
    (h3 : env.arrayBuffer = .ok ()) (h4 : env.getDocument = .ok ())
    (h5 : env.getPage 1 = .ok ()) (h6 : env.getContext2d = some ())
    (h7 : env.render = .ok ()) (h8 : env.toBlob = .ok (some b)) :
    tryBlock env file = (.ok (.ok (successRes env file b)),
      traceObjectURL u (env.getViewport 3)) := by
  simp only [tryBlock, h1, h2, h3, h4, h5, h6, h7, h8]

/-- Pipeline reduction when every step succeeds but the encoder delivers a
null blob. -/
theorem tryBlock_nullBlob (env : Env) (file : InputFile) (u : String)
    (h1 : env.importPdfjs = .ok ()) (h2 : env.importWorker = .ok u)
    (h3 : env.arrayBuffer = .ok ()) (h4 : env.getDocument = .ok ())
    (h5 : env.getPage 1 = .ok ()) (h6 : env.getContext2d = some ())
    (h7 : env.render = .ok ()) (h8 : env.toBlob = .ok none) :
    tryBlock env file = (.ok (.ok (failRes "Failed to create image blob")),
      traceToBlob u (env.getViewport 3)) := by
  simp only [tryBlock, h1, h2, h3, h4, h5, h6, h7, h8]

/-- Pipeline reduction when the `canvas.toBlob` invocation itself throws:
the promise built by the executor rejects, and the `try` block still
returns it normally. -/
theorem tryBlock_blobThrow (env : Env) (file : InputFile) (u : String)
    (e : JsError)
    (h1 : env.importPdfjs = .ok ()) (h2 : env.importWorker = .ok u)
    (h3 : env.arrayBuffer = .ok ()) (h4 : env.getDocument = .ok ())
    (h5 : env.getPage 1 = .ok ()) (h6 : env.getContext2d = some ())
    (h7 : env.render = .ok ()) (h8 : env.toBlob = .error e) :
    tryBlock env file = (.ok (.error e), traceToBlob u (env.getViewport 3)) := by
  simp only [tryBlock, h1, h2, h3, h4, h5, h6, h7, h8]

/-- Pipeline reduction when `canvas.getContext("2d")` yields null: the
`try` block throws `contextError`. -/
theorem tryBlock_contextFail (env : Env) (file : InputFile) (u : String)
    (h1 : env.importPdfjs = .ok ()) (h2 : env.importWorker = .ok u)
    (h3 : env.arrayBuffer = .ok ()) (h4 : env.getDocument = .ok ())
    (h5 : env.getPage 1 = .ok ()) (h6 : env.getContext2d = none) :
    tryBlock env file = (.error contextError, traceGetContext u) := by
  simp only [tryBlock, h1, h2, h3, h4, h5, h6]

/-- C3: in a non-browser context (window or document unavailable) the call
returns the failure result whose error is exactly the SSR guard message,
with `imageUrl` empty and `file` null, and the trace is empty: no PDF
engine or canvas operation is performed (the engine is never imported,
hence never loaded or invoked). -/
theorem c3_non_browser (env : Env) (file : InputFile)
    (h : env.hasWindow = false ∨ env.hasDocument = false) :
    convertPdfToImage env file = (.ok (failRes ssrMessage), Trace.empty)
      ∧ ssrMessage
          = "PDF conversion must run in the browser (DOM APIs not available)."
      ∧ failRes ssrMessage = ⟨"", none, some ssrMessage⟩ :=
  ⟨convert_ssr env file h, rfl, rfl⟩

/-- Witness for C3: a windowless environment. -/
theorem c3_non_browser_witness :
    convertPdfToImage ssrEnv sampleFile = (.ok (failRes ssrMessage), Trace.empty)
      ∧ ssrMessage
          = "PDF conversion must run in the browser (DOM APIs not available)."
      ∧ failRes ssrMessage = ⟨"", none, some ssrMessage⟩ :=
  c3_non_browser ssrEnv sampleFile (Or.inl rfl)

/-- C4: on every successful conversion the output file's name is the input
name with one trailing `.pdf` stripped case-insensitively and `.png`
appended, and its MIME type is exactly `"image/png"` regardless of the
input name; in particular `"invoice.PDF"` yields `"invoice.png"` and
`"report"` yields `"report.png"`. -/
theorem c4_filename_mime (env : Env) (file : InputFile) (u : String) (b : Blob)
    (hw : env.hasWindow = true) (hd : env.hasDocument = true)
    (h1 : env.importPdfjs = .ok ()) (h2 : env.importWorker = .ok u)
    (h3 : env.arrayBuffer = .ok ()) (h4 : env.getDocument = .ok ())
    (h5 : env.getPage 1 = .ok ()) (h6 : env.getContext2d = some ())
    (h7 : env.render = .ok ()) (h8 : env.toBlob = .ok (some b)) :
    (convertPdfToImage env file).1 = .ok (successRes env file b)
      ∧ (successRes env file b).file
          = some ⟨stripPdfExt file.name ++ ".png", "image/png", b⟩
      ∧ derivedPngName "invoice.PDF" = "invoice.png"
      ∧ derivedPngName "report" = "report.png" := by
  refine ⟨?_, rfl, by decide, by decide⟩
  rw [convert_promise env file _ _ hw hd
    (tryBlock_success env file u b h1 h2 h3 h4 h5 h6 h7 h8)]

/-- Witness for C4 at the successful environment on `"invoice.PDF"`. -/
theorem c4_filename_mime_witness :
    ((convertPdfToImage okEnv sampleFile).1
        = .ok (successRes okEnv sampleFile ⟨7⟩)
      ∧ (successRes okEnv sampleFile ⟨7⟩).file
          = some ⟨stripPdfExt sampleFile.name ++ ".png", "image/png", ⟨7⟩⟩
      ∧ derivedPngName "invoice.PDF" = "invoice.png"
      ∧ derivedPngName "report" = "report.png")
      ∧ (successRes okEnv sampleFile ⟨7⟩).file
          = some ⟨"invoice.png", "image/png", ⟨7⟩⟩ :=
  ⟨c4_filename_mime okEnv sampleFile "pdf.worker.min.mjs" ⟨7⟩
    rfl rfl rfl rfl rfl rfl rfl rfl rfl rfl, by decide⟩

/-- C6: whenever the canvas export delivers a null blob, the call resolves
to the failure result with `imageUrl` empty, `file` null and error exactly
`"Failed to create image blob"`. -/
theorem c6_null_blob (env : Env) (file : InputFile) (u : String)
    (hw : env.hasWindow = true) (hd : env.hasDocument = true)
    (h1 : env.importPdfjs = .ok ()) (h2 : env.importWorker = .ok u)
    (h3 : env.arrayBuffer = .ok ()) (h4 : env.getDocument = .ok ())
    (h5 : env.getPage 1 = .ok ()) (h6 : env.getContext2d = some ())
    (h7 : env.render = .ok ()) (h8 : env.toBlob = .ok none) :
    (convertPdfToImage env file).1
      = .ok ⟨"", none, some "Failed to create image blob"⟩ := by
  rw [convert_promise env file _ _ hw hd
    (tryBlock_nullBlob env file u h1 h2 h3 h4 h5 h6 h7 h8)]
  rfl

/-- Witness for C6: the environment whose encoder yields a null blob. -/
theorem c6_null_blob_witness :
    (convertPdfToImage nullBlobEnv sampleFile).1
      = .ok ⟨"", none, some "Failed to create image blob"⟩ :=
  c6_null_blob nullBlobEnv sampleFile "pdf.worker.min.mjs"
    rfl rfl rfl rfl rfl rfl rfl rfl rfl rfl

/-- C7: whenever 2D-context acquisition fails, the pipeline throws
`new Error("Failed to get 2D canvas context")`; the top-level catch wraps
that exact message, so the call resolves to a failure result whose error
is the catch prefix concatenated with exactly that message. -/
theorem c7_context_failure (env : Env) (file : InputFile) (u : String)
    (hw : env.hasWindow = true) (hd : env.hasDocument = true)
    (h1 : env.importPdfjs = .ok ()) (h2 : env.importWorker = .ok u)
    (h3 : env.arrayBuffer = .ok ()) (h4 : env.getDocument = .ok ())
    (h5 : env.getPage 1 = .ok ()) (h6 : env.getContext2d = none) :
    (convertPdfToImage env file).1
      = .ok (failRes
          ("Failed to convert PDF: " ++ "Failed to get 2D canvas context"))
      ∧ errText contextError = "Failed to get 2D canvas context" := by
  constructor
  · rw [convert_catch env file contextError (traceGetContext u) hw hd
      (tryBlock_contextFail env file u h1 h2 h3 h4 h5 h6)]
    rfl
  · decide

/-- Witness for C7: the environment with a null 2D context. -/
theorem c7_context_failure_witness :
    (convertPdfToImage noCtxEnv sampleFile).1
      = .ok (failRes
          ("Failed to convert PDF: " ++ "Failed to get 2D canvas context"))
      ∧ errText contextError = "Failed to get 2D canvas context" :=
  c7_context_failure noCtxEnv sampleFile "pdf.worker.min.mjs"
    rfl rfl rfl rfl rfl rfl rfl rfl

/-- A second sample input file (no `.pdf` suffix). -/
def plainFile : InputFile := { name := "report" }

/-- Counterexample to C2 as stated: in a browser environment where the
`canvas.toBlob(...)` invocation itself throws synchronously (e.g. a
`SecurityError` on a tainted canvas), the promise returned by
`convertPdfToImage` REJECTS with that exception instead of resolving to a
`PdfConversionResult`: the `return new Promise(...)` inside the `try`
block is not awaited, so per JS semantics the rejection of the returned
promise bypasses the `catch` block entirely. -/
theorem c2_counterexample :
    (convertPdfToImage blobThrowEnv sampleFile).1 = .error securityError :=
  rfl

/-- C2 amended: whenever the encoder invocation does not itself throw
synchronously, the call always resolves to a `PdfConversionResult` (never
rejects): every failure in the awaited steps is normalized by the catch,
and a null encoder result resolves to a failure result. -/
theorem c2_resolves_unless_encoder_throws (env : Env) (file : InputFile)
    (h : ∃ ob, env.toBlob = .ok ob) :
    ((convertPdfToImage env file).1).isOk = true := by
  obtain ⟨ob, hob⟩ := h
  by_cases hssr : env.hasWindow = false ∨ env.hasDocument = false
  · rw [convert_ssr env file hssr]
    rfl
  · push_neg at hssr
    obtain ⟨hw, hd⟩ := hssr
    have hw' : env.hasWindow = true := by simpa using hw
    have hd' : env.hasDocument = true := by simpa using hd
    rcases tryBlock_cases env file with ⟨e, t', ht⟩ | ⟨e, t', ht, htb⟩
      | ⟨t', ht⟩ | ⟨b, t', ht⟩
    · rw [convert_catch env file e t' hw' hd' ht]
      rfl
    · rw [hob] at htb
      exact absurd htb (by simp)
    · rw [convert_promise env file _ t' hw' hd' ht]
      rfl
    · rw [convert_promise env file _ t' hw' hd' ht]
      rfl

/-- Witness for amended C2 at the fully successful environment. -/
theorem c2_resolves_witness :
    ((convertPdfToImage okEnv sampleFile).1).isOk = true :=
  c2_resolves_unless_encoder_throws okEnv sampleFile ⟨some ⟨7⟩, rfl⟩

/-- Counterexample to C5 as stated: the synchronous `toBlob` throw is an
exception raised in the pipeline after the environment check, yet the call
does not resolve to any result at all (so in particular not to a failure
result carrying the wrapped message): it rejects. -/
theorem c5_counterexample :
    (convertPdfToImage blobThrowEnv plainFile).1 = .error securityError
      ∧ ((convertPdfToImage blobThrowEnv plainFile).1).isOk = false :=
  ⟨rfl, rfl⟩

/-- C5 amended: every exception raised in the awaited pipeline steps after
the environment check (module imports, byte read, document load, page
fetch, context acquisition, render) is caught by the top-level catch and
the call resolves to a failure result whose error is exactly
`"Failed to convert PDF: "` concatenated with the exception's message, or
with its string form when no non-empty message is available.  (A
synchronous throw from the encoder invocation itself escapes as a
rejection instead — see the counterexample.) -/
theorem c5_wrapped_exception (env : Env) (file : InputFile) (e : JsError)
    (t : Trace) (hw : env.hasWindow = true) (hd : env.hasDocument = true)
    (h : tryBlock env file = (.error e, t)) :
    (convertPdfToImage env file).1
        = .ok (failRes ("Failed to convert PDF: " ++ errText e))
      ∧ (∀ m s, m ≠ "" → errText ⟨some m, s⟩ = m)
      ∧ (∀ s, errText ⟨none, s⟩ = s) := by
  refine ⟨?_, ?_, fun s => rfl⟩
  · rw [convert_catch env file e t hw hd h]
  · intro m s hm
    simp [errText, hm]

/-- Witness for amended C5: a rejected document load whose exception has
no `message` property, so its string form is used. -/
theorem c5_wrapped_exception_witness :
    (convertPdfToImage badPdfEnv plainFile).1
      = .ok (failRes ("Failed to convert PDF: " ++ errText badPdfError)) :=
  (c5_wrapped_exception badPdfEnv plainFile badPdfError
    (traceGetDocument "pdf.worker.min.mjs") rfl rfl rfl).1

/-- C8: every call that reaches the rendering stage requests exactly page
index 1 (and only that page) from the engine, computes the viewport at the
fixed scale factor 3 (and no other scale), sizes the canvas exactly to the
viewport's width and height, and the render call happens with the canvas
at exactly that size. -/
theorem c8_render_parameters (env : Env) (file : InputFile) (u : String)
    (hw : env.hasWindow = true) (hd : env.hasDocument = true)
    (h1 : env.importPdfjs = .ok ()) (h2 : env.importWorker = .ok u)
    (h3 : env.arrayBuffer = .ok ()) (h4 : env.getDocument = .ok ())
    (h5 : env.getPage 1 = .ok ()) (h6 : env.getContext2d = some ()) :
    (convertPdfToImage env file).2.pagesRequested = [1]
      ∧ (convertPdfToImage env file).2.viewportScales = [3]
      ∧ (convertPdfToImage env file).2.canvasSizes
          = [((env.getViewport 3).width, (env.getViewport 3).height)]
      ∧ (convertPdfToImage env file).2.rendersAt
          = [((env.getViewport 3).width, (env.getViewport 3).height)] := by
  have htr : (convertPdfToImage env file).2 = traceRender u (env.getViewport 3)
      ∨ (convertPdfToImage env file).2 = traceToBlob u (env.getViewport 3)
      ∨ (convertPdfToImage env file).2 = traceObjectURL u (env.getViewport 3) := by
    rcases h7 : env.render with e7 | u7
    · have ht : tryBlock env file
          = (.error e7, traceRender u (env.getViewport 3)) := by
        simp only [tryBlock, h1, h2, h3, h4, h5, h6, h7]
      rw [convert_catch env file _ _ hw hd ht]
      exact Or.inl rfl
    rcases h8 : env.toBlob with e8 | ob
    · rw [convert_promise env file _ _ hw hd
        (tryBlock_blobThrow env file u e8 h1 h2 h3 h4 h5 h6 h7 h8)]
      exact Or.inr (Or.inl rfl)
    rcases ob with _ | b
    · rw [convert_promise env file _ _ hw hd
        (tryBlock_nullBlob env file u h1 h2 h3 h4 h5 h6 h7 h8)]
      exact Or.inr (Or.inl rfl)
    · rw [convert_promise env file _ _ hw hd
        (tryBlock_success env file u b h1 h2 h3 h4 h5 h6 h7 h8)]
      exact Or.inr (Or.inr rfl)
  rcases htr with hc | hc | hc <;> rw [hc] <;>
    simp [traceObjectURL, traceToBlob, traceRender, traceGetContext,
      traceGetPage, traceGetDocument, traceArrayBuffer, traceWorkerImport,
      traceEngineImport, Trace.empty]

/-- Witness for C8 at the fully successful environment (viewport
612×3 by 792×3). -/
theorem c8_render_parameters_witness :
    (convertPdfToImage okEnv sampleFile).2.pagesRequested = [1]
      ∧ (convertPdfToImage okEnv sampleFile).2.viewportScales = [3]
      ∧ (convertPdfToImage okEnv sampleFile).2.canvasSizes
          = [((okEnv.getViewport 3).width, (okEnv.getViewport 3).height)]
      ∧ (convertPdfToImage okEnv sampleFile).2.rendersAt
          = [((okEnv.getViewport 3).width, (okEnv.getViewport 3).height)] :=
  c8_render_parameters okEnv sampleFile "pdf.worker.min.mjs"
    rfl rfl rfl rfl rfl rfl rfl rfl

/-- The value of the process-global `GlobalWorkerOptions.workerSrc` slot
after a call whose trace is `t`, starting from prior value `prev` (the
slot is assign-only; each recorded write overwrites it). -/
def workerSrcAfter (prev : Option String) (t : Trace) : Option String :=
  t.workerSrcWrites.foldl (fun _ v => some v) prev

/-- Counterexample to C9 as stated: the worker-source registration is not
a guarded one-time initialization.  After one successful call the value is
set; the identical repeated call (the function is deterministic in `Env`)
still performs the registration work — its trace records a fresh worker
module import and a fresh write to the slot — instead of skipping it. -/
theorem c9_counterexample :
    workerSrcAfter none (convertPdfToImage okEnv sampleFile).2
        = some "pdf.worker.min.mjs"
      ∧ (convertPdfToImage okEnv sampleFile).2.workerSrcWrites
          = ["pdf.worker.min.mjs"]
      ∧ (convertPdfToImage okEnv sampleFile).2.workerImports = 1
      ∧ ["pdf.worker.min.mjs"] ≠ ([] : List String) :=
  ⟨rfl, rfl, rfl, by decide⟩

/-- C9 amended: the registration is an unguarded per-call overwrite: every
call that passes the environment check and whose dynamic imports succeed
re-imports the worker module and writes the worker source exactly once;
the write is idempotent in value, so from any prior state of the slot the
configuration afterwards is the imported URL. -/
theorem c9_register_per_call (env : Env) (file : InputFile) (u : String)
    (prev : Option String)
    (hw : env.hasWindow = true) (hd : env.hasDocument = true)
    (h1 : env.importPdfjs = .ok ()) (h2 : env.importWorker = .ok u) :
    (convertPdfToImage env file).2.workerSrcWrites = [u]
      ∧ (convertPdfToImage env file).2.workerImports = 1
      ∧ workerSrcAfter prev (convertPdfToImage env file).2 = some u := by
  have hws : (convertPdfToImage env file).2.workerSrcWrites = [u]
      ∧ (convertPdfToImage env file).2.workerImports = 1 := by
    rcases h3 : env.arrayBuffer with e3 | u3
    · have ht : tryBlock env file = (.error e3, traceArrayBuffer u) := by
        simp only [tryBlock, h1, h2, h3]
      rw [convert_catch env file _ _ hw hd ht]
      exact ⟨rfl, rfl⟩
    rcases h4 : env.getDocument with e4 | u4
    · have ht : tryBlock env file = (.error e4, traceGetDocument u) := by
        simp only [tryBlock, h1, h2, h3, h4]
      rw [convert_catch env file _ _ hw hd ht]
      exact ⟨rfl, rfl⟩
    rcases h5 : env.getPage 1 with e5 | u5
    · have ht : tryBlock env file = (.error e5, traceGetPage u) := by
        simp only [tryBlock, h1, h2, h3, h4, h5]
      rw [convert_catch env file _ _ hw hd ht]
      exact ⟨rfl, rfl⟩
    rcases h6 : env.getContext2d with _ | u6
    · rw [convert_catch env file _ _ hw hd
        (tryBlock_contextFail env file u h1 h2 h3 h4 h5 h6)]
      exact ⟨rfl, rfl⟩
    rcases h7 : env.render with e7 | u7
    · have ht : tryBlock env file
          = (.error e7, traceRender u (env.getViewport 3)) := by
        simp only [tryBlock, h1, h2, h3, h4, h5, h6, h7]
      rw [convert_catch env file _ _ hw hd ht]
      exact ⟨rfl, rfl⟩
    rcases h8 : env.toBlob with e8 | ob
    · rw [convert_promise env file _ _ hw hd
        (tryBlock_blobThrow env file u e8 h1 h2 h3 h4 h5 h6 h7 h8)]
      exact ⟨rfl, rfl⟩
    rcases ob with _ | b
    · rw [convert_promise env file _ _ hw hd
        (tryBlock_nullBlob env file u h1 h2 h3 h4 h5 h6 h7 h8)]
      exact ⟨rfl, rfl⟩
    · rw [convert_promise env file _ _ hw hd
        (tryBlock_success env file u b h1 h2 h3 h4 h5 h6 h7 h8)]
      exact ⟨rfl, rfl⟩
  refine ⟨hws.1, hws.2, ?_⟩
  simp [workerSrcAfter, hws.1]

/-- Witness for amended C9, started from a slot already holding the same
value: the call still writes, and the final value is unchanged. -/
theorem c9_register_per_call_witness :
    (convertPdfToImage okEnv sampleFile).2.workerSrcWrites
        = ["pdf.worker.min.mjs"]
      ∧ (convertPdfToImage okEnv sampleFile).2.workerImports = 1
      ∧ workerSrcAfter (some "pdf.worker.min.mjs")
          (convertPdfToImage okEnv sampleFile).2 = some "pdf.worker.min.mjs" :=
  c9_register_per_call okEnv sampleFile "pdf.worker.min.mjs"
    (some "pdf.worker.min.mjs") rfl rfl rfl rfl

/-- An input file whose name ends in a doubled `.pdf`. -/
def pdfPdfFile : InputFile := { name := "report.pdf.pdf" }

/-- An input file with a non-pdf extension. -/
def photoFile : InputFile := { name := "photo.png" }

/-- C10: the filename derivation strips at most one trailing `.pdf` and
touches nothing else: `"report.pdf.pdf"` maps to `"report.pdf.png"`,
`"photo.png"` maps to `"photo.png.png"` (both verified on full successful
runs), and in general the derived base is either the whole name (when no
case-insensitive `.pdf` suffix is present) or the name minus exactly its
last four characters, which spell `.pdf` up to ASCII case — so any `.pdf`
occurring elsewhere in the name is preserved. -/
theorem c10_strip_one_suffix :
    derivedPngName "report.pdf.pdf" = "report.pdf.png"
      ∧ derivedPngName "photo.png" = "photo.png.png"
      ∧ (convertPdfToImage okEnv pdfPdfFile).1
          = .ok (successRes okEnv pdfPdfFile ⟨7⟩)
      ∧ (successRes okEnv pdfPdfFile ⟨7⟩).file
          = some ⟨"report.pdf.png", "image/png", ⟨7⟩⟩
      ∧ (convertPdfToImage okEnv photoFile).1
          = .ok (successRes okEnv photoFile ⟨7⟩)
      ∧ (successRes okEnv photoFile ⟨7⟩).file
          = some ⟨"photo.png.png", "image/png", ⟨7⟩⟩
      ∧ ∀ name : String,
          stripPdfExt name = name
          ∨ ((stripPdfExt name).toList
                = name.toList.take (name.toList.length - 4)
              ∧ (name.toList.drop (name.toList.length - 4)).map Char.toLower
                  = ['.', 'p', 'd', 'f']
              ∧ (stripPdfExt name).toList
                  ++ name.toList.drop (name.toList.length - 4)
                  = name.toList) := by
  refine ⟨by decide, by decide, rfl, by decide, rfl, by decide, ?_⟩
  intro name
  by_cases hcond : (name.toList.drop (name.toList.length - 4)).map Char.toLower
      = ['.', 'p', 'd', 'f']
  · right
    have hs : stripPdfExt name
        = (name.toList.take (name.toList.length - 4)).asString := by
      unfold stripPdfExt
      rw [if_pos hcond]
    refine ⟨?_, hcond, ?_⟩
    · rw [hs]
      rfl
    · rw [hs]
      exact List.take_append_drop _ _
  · left
    unfold stripPdfExt
    rw [if_neg hcond]
